import Mathlib

/-!
Verification of the project data integrity subsystem.

Shallow embedding of the validation, persistence and export/import logic of
the repository (the validation module `src/unnamed/part_001`,
`src/frontend/src/utils/dataPersistence.ts` and
`src/frontend/src/utils/exportUtils.ts`), together with theorems settling
the frozen claims about them.

JavaScript values reaching the validators are modelled by the inductive type
`JsValue`; JavaScript numbers are modelled by `JNum`, the rationals extended
with NaN and the two infinities (rationals idealize IEEE doubles; none of
the verified properties depends on floating-point rounding).  Property
access on `null` or `undefined` throws in JavaScript, so field access is
modelled in the `Except` monad and validator totality ("never throws") is a
theorem rather than a modelling assumption.
-/

namespace Agro

/-- A JavaScript number: finite (idealized as a rational), NaN, or an
infinity. -/
inductive JNum where
  | num (q : ℚ)
  | nan
  | inf
  | ninf
  deriving DecidableEq, Repr

/-- JavaScript `<`: any comparison involving NaN is false. -/
def JNum.ltJ : JNum → JNum → Bool
  | .num a, .num b => a < b
  | .num _, .inf => true
  | .ninf, .num _ => true
  | .ninf, .inf => true
  | _, _ => false

/-- JavaScript `<=`: any comparison involving NaN is false. -/
def JNum.leJ : JNum → JNum → Bool
  | .nan, _ => false
  | _, .nan => false
  | .ninf, _ => true
  | _, .inf => true
  | .inf, _ => false
  | _, .ninf => false
  | .num a, .num b => a ≤ b

/-- JavaScript `Math.abs`. -/
def JNum.absJ : JNum → JNum
  | .num q => .num |q|
  | .nan => .nan
  | .inf => .inf
  | .ninf => .inf

/-- `isFinite` on a number (the validators only apply it after a
`typeof === 'number'` check, so the coercing behaviour of the global
`isFinite` on non-numbers is never exercised). -/
def JNum.isFiniteJ : JNum → Bool
  | .num _ => true
  | _ => false

/-- JavaScript truthiness of a number: `0` and `NaN` are falsy. -/
def JNum.truthyJ : JNum → Bool
  | .num q => q != 0
  | .nan => false
  | .inf => true
  | .ninf => true

/-- A JavaScript value as the validators can receive it: `undefined`,
`null`, a boolean, a number, a string, an array, or a plain object (a list
of named fields; object literals have distinct keys, and lookups take the
first binding). -/
inductive JsValue where
  | vUndefined
  | vNull
  | vBool (b : Bool)
  | vNum (n : JNum)
  | vStr (s : String)
  | vArr (elems : List JsValue)
  | vObj (fields : List (String × JsValue))

/-- JavaScript truthiness. -/
def truthy : JsValue → Bool
  | .vUndefined => false
  | .vNull => false
  | .vBool b => b
  | .vNum n => n.truthyJ
  | .vStr s => s != ""
  | .vArr _ => true
  | .vObj _ => true

/-- The `typeof` operator (`typeof null` is `"object"`, as in JavaScript). -/
def typeofJs : JsValue → String
  | .vUndefined => "undefined"
  | .vNull => "object"
  | .vBool _ => "boolean"
  | .vNum _ => "number"
  | .vStr _ => "string"
  | .vArr _ => "object"
  | .vObj _ => "object"

/-- Property read on a value that is not `null`/`undefined`: a missing field
reads as `undefined`; `length` of a string or array is its length.  (The
sources never read other primitive properties.) -/
def objGet : JsValue → String → JsValue
  | .vObj fs, f => (fs.lookup f).getD .vUndefined
  | .vArr xs, f => if f = "length" then .vNum (.num xs.length) else .vUndefined
  | .vStr s, f => if f = "length" then .vNum (.num s.length) else .vUndefined
  | _, _ => .vUndefined

/-- The runtime error a JavaScript expression can raise in the modelled
code: a `TypeError` from reading a property of `null` or `undefined`. -/
inductive JsError where
  | typeError
  deriving DecidableEq, Repr

/-- Property access as written in the sources: reading a property of `null`
or `undefined` throws, every other read yields a value. -/
def jsGet : JsValue → String → Except JsError JsValue
  | .vNull, _ => .error .typeError
  | .vUndefined, _ => .error .typeError
  | v, f => .ok (objGet v f)

/-- The `in` operator on the object shapes this code tests (never applied to
numeric array indices by the sources). -/
def jsHasField (v : JsValue) (f : String) : Bool :=
  match v with
  | .vObj fs => (fs.lookup f).isSome
  | .vArr _ => f = "length"
  | _ => false

/-- `v < q` for a numeric literal `q`, false when `v` is not a number. -/
def jvLtQ (v : JsValue) (q : ℚ) : Bool :=
  match v with
  | .vNum n => n.ltJ (.num q)
  | _ => false

/-- `v > q` for a numeric literal `q`, false when `v` is not a number. -/
def jvGtQ (v : JsValue) (q : ℚ) : Bool :=
  match v with
  | .vNum n => JNum.ltJ (.num q) n
  | _ => false

/-- `v <= q` for a numeric literal `q`, false when `v` is not a number. -/
def jvLeQ (v : JsValue) (q : ℚ) : Bool :=
  match v with
  | .vNum n => n.leJ (.num q)
  | _ => false

/-- `Math.abs(v) > q`; only applied after `v` is known to be a number. -/
def jvAbsGtQ (v : JsValue) (q : ℚ) : Bool :=
  match v with
  | .vNum n => JNum.ltJ (.num q) n.absJ
  | _ => false

/-- `isFinite(v)` after a `typeof === 'number'` guard. -/
def isFiniteV : JsValue → Bool
  | .vNum n => n.isFiniteJ
  | _ => false

/-- The string content of a value already known to be a string. -/
def strVal : JsValue → String
  | .vStr s => s
  | _ => ""

/-- `v !== undefined`. -/
def isUndefinedV : JsValue → Bool
  | .vUndefined => true
  | _ => false

/-- `Array.isArray`. -/
def isArrayV : JsValue → Bool
  | .vArr _ => true
  | _ => false

/-- A template literal interpolation `${x}` of a possibly-undefined string:
`undefined` prints as the text "undefined". -/
def jsTemplateOpt : Option String → String
  | some s => s
  | none => "undefined"

/-- The result type produced by every validator
(`interface ValidationResult` in the validation module). -/
structure ValidationResult where
  isValid : Bool
  error : Option String := none
  warning : Option String := none
  deriving DecidableEq, Repr

/-! ## String formats

The two regular expressions of the validation module and the unanchored
spacing pattern of `calculateProjectStatistics`, as executable parsers over
character lists.  Greedy repetition needs no backtracking for these
patterns: every character that `\d+` could give back is a digit, which never
matches the following `.`/`x`/unit position, and where the `cm` alternative
fails its continuation the `m` alternative cannot start with the letter c
either.
-/

/-- A decimal digit. -/
def isDigitC (c : Char) : Bool := '0' ≤ c && c ≤ '9'

/-- Value of a digit run. -/
def digitsToNat (ds : List Char) : ℕ :=
  ds.foldl (fun a c => 10 * a + (c.toNat - 48)) 0

/-- Value of a fractional digit run. -/
def fracVal (fs : List Char) : ℚ :=
  (digitsToNat fs : ℚ) / (10 : ℚ) ^ fs.length

/-- `(\d+(?:\.\d+)?)` with the exact value `parseFloat` would produce on the
captured text (the capture is a plain decimal numeral, so the rational value
is exact); returns the value and the unconsumed suffix, or `none` when no
digit starts the input. -/
def parseNum (cs : List Char) : Option (ℚ × List Char) :=
  let ds := cs.takeWhile isDigitC
  let rest := cs.dropWhile isDigitC
  if ds.isEmpty then none
  else
    match rest with
    | '.' :: rest2 =>
      let fs := rest2.takeWhile isDigitC
      if fs.isEmpty then some ((digitsToNat ds : ℚ), rest)
      else some ((digitsToNat ds : ℚ) + fracVal fs, rest2.dropWhile isDigitC)
    | _ => some ((digitsToNat ds : ℚ), rest)

/-- `(cm|m)`, returning `true` for centimeters. -/
def parseUnit : List Char → Option (Bool × List Char)
  | 'c' :: 'm' :: r => some (true, r)
  | 'm' :: r => some (false, r)
  | _ => none

/-- The anchored spacing pattern of `validatePlant`,
`^(\d+(?:\.\d+)?)(?:x(\d+(?:\.\d+)?))?(cm|m)$`: first captured number,
optional second captured number, and whether the unit is `cm`. -/
def parseSpacingAnchored (s : String) : Option (ℚ × Option ℚ × Bool) :=
  match parseNum s.toList with
  | none => none
  | some (a, r1) =>
    match r1 with
    | 'x' :: r2 =>
      match parseNum r2 with
      | none => none
      | some (b, r3) =>
        match parseUnit r3 with
        | none => none
        | some (u, r4) => if r4.isEmpty then some (a, some b, u) else none
    | _ =>
      match parseUnit r1 with
      | none => none
      | some (u, r4) => if r4.isEmpty then some (a, none, u) else none

/-- `spacingPattern.test` in `validatePlant`. -/
def spacingFormatTest (s : String) : Bool :=
  (parseSpacingAnchored s).isSome

/-- A hexadecimal digit. -/
def isHexDigitC (c : Char) : Bool :=
  isDigitC c || ('a' ≤ c && c ≤ 'f') || ('A' ≤ c && c ≤ 'F')

/-- The color pattern `^#[0-9A-Fa-f]{6}$`. -/
def colorFormatTest (s : String) : Bool :=
  match s.toList with
  | '#' :: r => r.length = 6 && r.all isHexDigitC
  | _ => false

/-- A match of the unanchored statistics pattern
`(\d+(?:\.\d+)?)x(\d+(?:\.\d+)?)(cm|m)` starting at the head of the input. -/
def matchSpacingXYAt (cs : List Char) : Option (ℚ × ℚ × Bool) :=
  match parseNum cs with
  | none => none
  | some (a, r1) =>
    match r1 with
    | 'x' :: r2 =>
      match parseNum r2 with
      | none => none
      | some (b, r3) =>
        match parseUnit r3 with
        | some (u, _) => some (a, b, u)
        | none => none
    | _ => none

/-- Leftmost match of the unanchored statistics pattern
(`String.prototype.match` tries each start position left to right). -/
def searchSpacingXY : List Char → Option (ℚ × ℚ × Bool)
  | [] => none
  | c :: rest =>
    match matchSpacingXYAt (c :: rest) with
    | some m => some m
    | none => searchSpacingXY rest

/-! ## Number formatting

JavaScript renders a finite double in decimal.  On the integral and
terminating-decimal values at which this development ever evaluates it,
that is the exact shortest decimal expansion, which this helper produces;
non-terminating rationals (which do not occur as double values) fall back
to a fraction rendering that no claim exercises. -/

/-- Left-pad a numeral with zeros to the given width. -/
def padZeros (s : String) (k : ℕ) : String :=
  String.mk (List.replicate (k - s.length) '0') ++ s

/-- JavaScript number-to-string, as used in interpolated messages. -/
def jsNumToString (q : ℚ) : String :=
  if q.den = 1 then
    (if q.num < 0 then "-" else "") ++ toString q.num.natAbs
  else
    match (List.range 31).find? (fun k => q.den ∣ 10 ^ k) with
    | some k =>
      let total := q.num.natAbs * ((10 ^ k) / q.den)
      (if q.num < 0 then "-" else "") ++ toString (total / 10 ^ k) ++ "." ++
        padZeros (toString (total % 10 ^ k)) k
    | none => (if q.num < 0 then "-" else "") ++ toString q.num.natAbs ++ "/" ++ toString q.den

/-! ## The validators (validation module, `src/unnamed/part_001`)

Each function is the translation of its source; property reads use `jsGet`
and so live in `Except JsError`.  The early-return chains of the source are
rendered as right-nested if-else chains, which is their exact control flow.
Three local renderings keep the chains linear and are observationally
neutral:
* a read occurring inside a guarded block or a short-circuiting `&&` (such
  as `element.plant` in `element.type === 'plant' && element.plant`) is
  hoisted to the chain; every hoisted read is on a receiver already checked
  to be an object, where a property read cannot throw and has no effect;
* a conditional early return nested inside an optional-field block, as in
  `if (x !== undefined) { if (bad) return err }`, is rendered as the single
  test `if defined && bad then err else continue`;
* a nested validation `if (cond) { r = validateX(v); if (!r.isValid) return r }`
  is rendered as `(if cond then validateX v else .ok ⟨true, none, none⟩)`
  bound to the same failure check: when `cond` fails or the nested result is
  valid the chain continues, exactly as in the source. -/

/-- `CanvasValidationOptions`: every field optional. -/
structure CanvasValidationOptions where
  maxElements : Option ℕ := none
  maxCanvasSize : Option (ℚ × ℚ) := none
  minCanvasSize : Option (ℚ × ℚ) := none
  allowedFileTypes : Option (List String) := none
  maxFileSize : Option ℕ := none

/-- `DEFAULT_VALIDATION_OPTIONS`. -/
def DEFAULT_VALIDATION_OPTIONS : CanvasValidationOptions :=
  { maxElements := some 1000
    maxCanvasSize := some (200, 200)
    minCanvasSize := some (1, 1)
    allowedFileTypes := some ["image/png", "image/jpeg", "image/webp"]
    maxFileSize := some (10 * 1024 * 1024) }

/-- The spread merge `{ ...DEFAULT_VALIDATION_OPTIONS, ...options }`: a key
present in `options` wins. -/
def mergeOptions (o : CanvasValidationOptions) : CanvasValidationOptions :=
  { maxElements := o.maxElements <|> DEFAULT_VALIDATION_OPTIONS.maxElements
    maxCanvasSize := o.maxCanvasSize <|> DEFAULT_VALIDATION_OPTIONS.maxCanvasSize
    minCanvasSize := o.minCanvasSize <|> DEFAULT_VALIDATION_OPTIONS.minCanvasSize
    allowedFileTypes := o.allowedFileTypes <|> DEFAULT_VALIDATION_OPTIONS.allowedFileTypes
    maxFileSize := o.maxFileSize <|> DEFAULT_VALIDATION_OPTIONS.maxFileSize }

/-- `validatePlant`. -/
def validatePlant (plant : JsValue) : Except JsError ValidationResult :=
  if !truthy plant || typeofJs plant != "object" then
    .ok { isValid := false, error := some "Invalid plant data" }
  else jsGet plant "id" >>= fun pid =>
  if !truthy pid || typeofJs pid != "string" then
    .ok { isValid := false, error := some "Plant ID is required and must be a string" }
  else jsGet plant "name" >>= fun pname =>
  if !truthy pname || typeofJs pname != "string" then
    .ok { isValid := false, error := some "Plant name is required and must be a string" }
  else if jvGtQ (objGet pname "length") 100 then
    .ok { isValid := false, error := some "Plant name must be less than 100 characters" }
  else jsGet plant "spacing" >>= fun pspacing =>
  if !truthy pspacing || typeofJs pspacing != "string" then
    .ok { isValid := false, error := some "Plant spacing is required" }
  else if !spacingFormatTest (strVal pspacing) then
    .ok { isValid := false, error := some "Invalid spacing format. Use formats like \"1x1m\", \"30x30cm\", \"50cm\", or \"2m\"" }
  else jsGet plant "category" >>= fun pcategory =>
  if !truthy pcategory || typeofJs pcategory != "string" then
    .ok { isValid := false, error := some "Plant category is required" }
  else jsGet plant "color" >>= fun pcolor =>
  if !truthy pcolor || typeofJs pcolor != "string" then
    .ok { isValid := false, error := some "Plant color is required" }
  else if !colorFormatTest (strVal pcolor) then
    .ok { isValid := false, error := some "Plant color must be a valid hex color (e.g., #FF6B6B)" }
  else .ok { isValid := true }

/-- `validateTerrain`. -/
def validateTerrain (terrain : JsValue) : Except JsError ValidationResult :=
  if !truthy terrain || typeofJs terrain != "object" then
    .ok { isValid := false, error := some "Invalid terrain data" }
  else jsGet terrain "id" >>= fun tid =>
  if !truthy tid || typeofJs tid != "string" then
    .ok { isValid := false, error := some "Terrain ID is required and must be a string" }
  else jsGet terrain "name" >>= fun tname =>
  if !truthy tname || typeofJs tname != "string" then
    .ok { isValid := false, error := some "Terrain name is required and must be a string" }
  else if jvGtQ (objGet tname "length") 100 then
    .ok { isValid := false, error := some "Terrain name must be less than 100 characters" }
  else jsGet terrain "category" >>= fun tcategory =>
  if !truthy tcategory || typeofJs tcategory != "string" then
    .ok { isValid := false, error := some "Terrain category is required" }
  else jsGet terrain "color" >>= fun tcolor =>
  if !truthy tcolor || typeofJs tcolor != "string" then
    .ok { isValid := false, error := some "Terrain color is required" }
  else if !colorFormatTest (strVal tcolor) then
    .ok { isValid := false, error := some "Terrain color must be a valid hex color (e.g., #8B4513)" }
  else jsGet terrain "brushThickness" >>= fun tbrush =>
  if !isUndefinedV tbrush && (typeofJs tbrush != "number" || jvLtQ tbrush 1 || jvGtQ tbrush 100) then
    .ok { isValid := false, error := some "Brush thickness must be between 1 and 100 pixels" }
  else .ok { isValid := true }

/-- `validateStructure`. -/
def validateStructure (structure_ : JsValue) : Except JsError ValidationResult :=
  if !truthy structure_ || typeofJs structure_ != "object" then
    .ok { isValid := false, error := some "Invalid structure data" }
  else jsGet structure_ "id" >>= fun sid =>
  if !truthy sid || typeofJs sid != "string" then
    .ok { isValid := false, error := some "Structure ID is required and must be a string" }
  else jsGet structure_ "name" >>= fun sname =>
  if !truthy sname || typeofJs sname != "string" then
    .ok { isValid := false, error := some "Structure name is required and must be a string" }
  else if jvGtQ (objGet sname "length") 100 then
    .ok { isValid := false, error := some "Structure name must be less than 100 characters" }
  else jsGet structure_ "category" >>= fun scategory =>
  if !truthy scategory || typeofJs scategory != "string" then
    .ok { isValid := false, error := some "Structure category is required" }
  else jsGet structure_ "size" >>= fun ssize =>
  if !truthy ssize || typeofJs ssize != "object" then
    .ok { isValid := false, error := some "Structure size is required" }
  else jsGet ssize "width" >>= fun sw =>
  if typeofJs sw != "number" || jvLtQ sw (1 / 10) || jvGtQ sw 100 then
    .ok { isValid := false, error := some "Structure width must be between 0.1 and 100 meters" }
  else jsGet ssize "height" >>= fun sh =>
  if typeofJs sh != "number" || jvLtQ sh (1 / 10) || jvGtQ sh 100 then
    .ok { isValid := false, error := some "Structure height must be between 0.1 and 100 meters" }
  else jsGet structure_ "color" >>= fun scolor =>
  if !truthy scolor || typeofJs scolor != "string" then
    .ok { isValid := false, error := some "Structure color is required" }
  else if !colorFormatTest (strVal scolor) then
    .ok { isValid := false, error := some "Structure color must be a valid hex color (e.g., #696969)" }
  else .ok { isValid := true }

/-- The `validTypes` list of `validateDrawingElement` — note that it does
not contain the string "structure". -/
def validTypes : List String := ["plant", "terrain", "rectangle", "circle"]

/-- Whether a type string selects the dimension checks of
`validateDrawingElement` (`rectangle`, `circle` or `terrain`). -/
def isShapeType (t : String) : Bool :=
  t == "rectangle" || t == "circle" || t == "terrain"

/-- `validateDrawingElement`. -/
def validateDrawingElement (element : JsValue) : Except JsError ValidationResult :=
  if !truthy element || typeofJs element != "object" then
    .ok { isValid := false, error := some "Invalid element data" }
  else jsGet element "id" >>= fun eid =>
  if !truthy eid || typeofJs eid != "number" then
    .ok { isValid := false, error := some "Element ID is required and must be a number" }
  else jsGet element "type" >>= fun etype =>
  if !truthy etype || typeofJs etype != "string" then
    .ok { isValid := false, error := some "Element type is required" }
  else if !(validTypes.contains (strVal etype)) then
    .ok { isValid := false, error := some ("Element type must be one of: " ++ String.intercalate ", " validTypes) }
  else jsGet element "x" >>= fun ex =>
  if typeofJs ex != "number" || !isFiniteV ex then
    .ok { isValid := false, error := some "Element x position must be a valid number" }
  else jsGet element "y" >>= fun ey =>
  if typeofJs ey != "number" || !isFiniteV ey then
    .ok { isValid := false, error := some "Element y position must be a valid number" }
  else if jvAbsGtQ ex 100000 || jvAbsGtQ ey 100000 then
    .ok { isValid := false, error := some "Element coordinates are out of reasonable bounds" }
  else jsGet element "plant" >>= fun eplant =>
  (if strVal etype == "plant" && truthy eplant then validatePlant eplant
   else .ok { isValid := true }) >>= fun pv =>
  if !pv.isValid then .ok pv
  else jsGet element "terrain" >>= fun eterrain =>
  (if strVal etype == "terrain" && truthy eterrain then validateTerrain eterrain
   else .ok { isValid := true }) >>= fun tv =>
  if !tv.isValid then .ok tv
  else jsGet element "width" >>= fun ew =>
  if isShapeType (strVal etype) && !isUndefinedV ew &&
      (typeofJs ew != "number" || jvLtQ ew 0 || !isFiniteV ew) then
    .ok { isValid := false, error := some "Element width must be a valid positive number" }
  else jsGet element "height" >>= fun eh =>
  if isShapeType (strVal etype) && !isUndefinedV eh &&
      (typeofJs eh != "number" || jvLtQ eh 0 || !isFiniteV eh) then
    .ok { isValid := false, error := some "Element height must be a valid positive number" }
  else jsGet element "radius" >>= fun er =>
  if isShapeType (strVal etype) && !isUndefinedV er &&
      (typeofJs er != "number" || jvLtQ er 0 || !isFiniteV er) then
    .ok { isValid := false, error := some "Element radius must be a valid positive number" }
  else jsGet element "rotation" >>= fun erot =>
  if !isUndefinedV erot && (typeofJs erot != "number" || !isFiniteV erot) then
    .ok { isValid := false, error := some "Element rotation must be a valid number" }
  else .ok { isValid := true }

/-- `validateCanvasSize`.  The source asserts the merged bounds non-null
with `!`; after the merge they are always present, so the `getD` defaults
are never reached. -/
def validateCanvasSize (size : JsValue) (options : CanvasValidationOptions) :
    Except JsError ValidationResult :=
  let opts := mergeOptions options
  let minCS := opts.minCanvasSize.getD (1, 1)
  let maxCS := opts.maxCanvasSize.getD (200, 200)
  if !truthy size || typeofJs size != "object" then
    .ok { isValid := false, error := some "Invalid canvas size data" }
  else jsGet size "width" >>= fun w =>
  if typeofJs w != "number" || !isFiniteV w then
    .ok { isValid := false, error := some "Canvas width must be a valid number" }
  else jsGet size "height" >>= fun h =>
  if typeofJs h != "number" || !isFiniteV h then
    .ok { isValid := false, error := some "Canvas height must be a valid number" }
  else if jvLtQ w minCS.1 || jvGtQ w maxCS.1 then
    .ok { isValid := false, error := some ("Canvas width must be between " ++ jsNumToString minCS.1 ++ " and " ++ jsNumToString maxCS.1 ++ " meters") }
  else if jvLtQ h minCS.2 || jvGtQ h maxCS.2 then
    .ok { isValid := false, error := some ("Canvas height must be between " ++ jsNumToString minCS.2 ++ " and " ++ jsNumToString maxCS.2 ++ " meters") }
  else .ok { isValid := true }

/-- The indexed element loop of `validateElementsArray`. -/
def validateElementsLoop : List JsValue → ℕ → Except JsError ValidationResult
  | [], _ => .ok { isValid := true }
  | el :: rest, i =>
    validateDrawingElement el >>= fun r =>
    if !r.isValid then
      .ok { isValid := false, error := some ("Element at index " ++ toString i ++ ": " ++ jsTemplateOpt r.error) }
    else validateElementsLoop rest (i + 1)

/-- `validateElementsArray`. -/
def validateElementsArray (elements : JsValue) (options : CanvasValidationOptions) :
    Except JsError ValidationResult :=
  let opts := mergeOptions options
  match elements with
  | .vArr xs =>
    if xs.length > opts.maxElements.getD 1000 then
      .ok { isValid := false, error := some ("Maximum " ++ toString (opts.maxElements.getD 1000) ++ " elements allowed") }
    else validateElementsLoop xs 0
  | _ => .ok { isValid := false, error := some "Elements must be an array" }

/-- `validateCanvasState`: size first, then elements, short-circuiting. -/
def validateCanvasState (elements : JsValue) (canvasSize : JsValue)
    (options : CanvasValidationOptions) : Except JsError ValidationResult :=
  validateCanvasSize canvasSize options >>= fun sizeValidation =>
  if !sizeValidation.isValid then .ok sizeValidation
  else validateElementsArray elements options >>= fun elementsValidation =>
  if !elementsValidation.isValid then .ok elementsValidation
  else .ok { isValid := true }

/-! ## Totality of the validators

Every validator returns an `Except.ok` result on every input (it never
throws), and every invalid result carries an error message.  `resultTotalOk`
states this for one result; the lemmas below establish it for each
validator by walking its chain. -/

theorem exceptBind_ok {α β : Type} (a : α) (f : α → Except JsError β) :
    (Except.ok a : Except JsError α) >>= f = f a := rfl

theorem jsGet_obj (fs : List (String × JsValue)) (f : String) :
    jsGet (.vObj fs) f = .ok (objGet (.vObj fs) f) := rfl

theorem jsGet_arr (xs : List JsValue) (f : String) :
    jsGet (.vArr xs) f = .ok (objGet (.vArr xs) f) := rfl

def resultTotalOk : Except JsError ValidationResult → Prop
  | .ok r => r.isValid = false → r.error.isSome = true
  | .error _ => False

theorem resultTotalOk_iff (e : Except JsError ValidationResult) :
    resultTotalOk e ↔ ∃ r, e = .ok r ∧ (r.isValid = false → r.error.isSome = true) := by
  cases e <;> simp [resultTotalOk]

theorem ite_total (c : Prop) [Decidable c] (a b : Except JsError ValidationResult)
    (ha : resultTotalOk a) (hb : resultTotalOk b) : resultTotalOk (if c then a else b) := by
  by_cases h : c
  · rwa [if_pos h]
  · rwa [if_neg h]

theorem guardOk_bind_total (e k : Except JsError ValidationResult)
    (he : resultTotalOk e) (hk : resultTotalOk k) :
    resultTotalOk (e >>= fun r => if !r.isValid then .ok r else k) := by
  obtain ⟨r0, he0, hp0⟩ := (resultTotalOk_iff e).mp he
  rw [he0, exceptBind_ok]
  by_cases h : (!r0.isValid) = true
  · rw [if_pos h]
    exact hp0
  · rw [if_neg h]
    exact hk

theorem validatePlant_total (v : JsValue) : resultTotalOk (validatePlant v) := by
  cases v
  case vNull => exact (resultTotalOk_iff _).mpr ⟨_, rfl, by decide⟩
  case vUndefined => exact (resultTotalOk_iff _).mpr ⟨_, rfl, by decide⟩
  case vArr xs => exact (resultTotalOk_iff _).mpr ⟨_, rfl, by decide⟩
  case vBool b => simp [validatePlant, jsGet, objGet, truthy, typeofJs, resultTotalOk]
  case vNum n => simp [validatePlant, jsGet, objGet, truthy, typeofJs, resultTotalOk]
  case vStr s => simp [validatePlant, jsGet, objGet, truthy, typeofJs, resultTotalOk]
  case vObj fs =>
    simp only [validatePlant, jsGet_obj, exceptBind_ok]
    repeat' first
      | apply ite_total
      | exact fun h => rfl
      | exact fun h => nomatch h

theorem validateTerrain_total (v : JsValue) : resultTotalOk (validateTerrain v) := by
  cases v
  case vNull => exact (resultTotalOk_iff _).mpr ⟨_, rfl, by decide⟩
  case vUndefined => exact (resultTotalOk_iff _).mpr ⟨_, rfl, by decide⟩
  case vArr xs => exact (resultTotalOk_iff _).mpr ⟨_, rfl, by decide⟩
  case vBool b => simp [validateTerrain, jsGet, objGet, truthy, typeofJs, resultTotalOk]
  case vNum n => simp [validateTerrain, jsGet, objGet, truthy, typeofJs, resultTotalOk]
  case vStr s => simp [validateTerrain, jsGet, objGet, truthy, typeofJs, resultTotalOk]
  case vObj fs =>
    simp only [validateTerrain, jsGet_obj, exceptBind_ok]
    repeat' first
      | apply ite_total
      | exact fun h => rfl
      | exact fun h => nomatch h

theorem validateStructure_total (v : JsValue) : resultTotalOk (validateStructure v) := by
  cases v
  case vNull => exact (resultTotalOk_iff _).mpr ⟨_, rfl, by decide⟩
  case vUndefined => exact (resultTotalOk_iff _).mpr ⟨_, rfl, by decide⟩
  case vArr xs => exact (resultTotalOk_iff _).mpr ⟨_, rfl, by decide⟩
  case vBool b => simp [validateStructure, jsGet, objGet, truthy, typeofJs, resultTotalOk]
  case vNum n => simp [validateStructure, jsGet, objGet, truthy, typeofJs, resultTotalOk]
  case vStr s => simp [validateStructure, jsGet, objGet, truthy, typeofJs, resultTotalOk]
  case vObj fs =>
    simp only [validateStructure, jsGet_obj, exceptBind_ok]
    refine ite_total _ _ _ (fun h => rfl) ?_
    refine ite_total _ _ _ (fun h => rfl) ?_
    refine ite_total _ _ _ (fun h => rfl) ?_
    refine ite_total _ _ _ (fun h => rfl) ?_
    refine ite_total _ _ _ (fun h => rfl) ?_
    split
    · exact fun h => rfl
    · rename_i h
      generalize objGet (JsValue.vObj fs) "size" = sz at h ⊢
      cases sz <;> first
        | (exfalso; simp [truthy, typeofJs] at h; done)
        | (simp only [jsGet_obj, jsGet_arr, exceptBind_ok]
           repeat' first
             | apply ite_total
             | exact fun h2 => rfl
             | exact fun h2 => nomatch h2)

theorem validateDrawingElement_total (v : JsValue) : resultTotalOk (validateDrawingElement v) := by
  cases v
  case vNull => exact (resultTotalOk_iff _).mpr ⟨_, rfl, by decide⟩
  case vUndefined => exact (resultTotalOk_iff _).mpr ⟨_, rfl, by decide⟩
  case vArr xs => exact (resultTotalOk_iff _).mpr ⟨_, rfl, by decide⟩
  case vBool b => simp [validateDrawingElement, jsGet, objGet, truthy, typeofJs, resultTotalOk]
  case vNum n => simp [validateDrawingElement, jsGet, objGet, truthy, typeofJs, resultTotalOk]
  case vStr s => simp [validateDrawingElement, jsGet, objGet, truthy, typeofJs, resultTotalOk]
  case vObj fs =>
    simp only [validateDrawingElement, jsGet_obj, exceptBind_ok]
    repeat' first
      | exact validatePlant_total _
      | exact validateTerrain_total _
      | apply guardOk_bind_total
      | apply ite_total
      | exact fun h => rfl
      | exact fun h => nomatch h

theorem validateCanvasSize_total (v : JsValue) (o : CanvasValidationOptions) :
    resultTotalOk (validateCanvasSize v o) := by
  cases v
  case vNull => exact (resultTotalOk_iff _).mpr ⟨_, rfl, by decide⟩
  case vUndefined => exact (resultTotalOk_iff _).mpr ⟨_, rfl, by decide⟩
  case vArr xs => exact (resultTotalOk_iff _).mpr ⟨_, rfl, by decide⟩
  case vBool b => simp [validateCanvasSize, jsGet, objGet, truthy, typeofJs, resultTotalOk]
  case vNum n => simp [validateCanvasSize, jsGet, objGet, truthy, typeofJs, resultTotalOk]
  case vStr s => simp [validateCanvasSize, jsGet, objGet, truthy, typeofJs, resultTotalOk]
  case vObj fs =>
    simp only [validateCanvasSize, jsGet_obj, exceptBind_ok]
    repeat' first
      | apply ite_total
      | exact fun h => rfl
      | exact fun h => nomatch h

theorem validateElementsLoop_total (xs : List JsValue) (i : ℕ) :
    resultTotalOk (validateElementsLoop xs i) := by
  induction xs generalizing i with
  | nil => exact fun h => nomatch h
  | cons x rest ih =>
    simp only [validateElementsLoop]
    obtain ⟨r, hr, hp⟩ := (resultTotalOk_iff _).mp (validateDrawingElement_total x)
    rw [hr, exceptBind_ok]
    split
    · exact fun h => rfl
    · exact ih (i + 1)

theorem validateElementsArray_total (v : JsValue) (o : CanvasValidationOptions) :
    resultTotalOk (validateElementsArray v o) := by
  cases v <;> simp only [validateElementsArray] <;> try exact fun h => rfl
  case vArr xs =>
    apply ite_total
    · exact fun h => rfl
    · exact validateElementsLoop_total xs 0

theorem validateCanvasState_total (elements canvasSize : JsValue) (o : CanvasValidationOptions) :
    resultTotalOk (validateCanvasState elements canvasSize o) := by
  simp only [validateCanvasState]
  obtain ⟨r, hr, hp⟩ := (resultTotalOk_iff _).mp (validateCanvasSize_total canvasSize o)
  rw [hr, exceptBind_ok]
  split
  · exact hp
  · obtain ⟨r2, hr2, hp2⟩ := (resultTotalOk_iff _).mp (validateElementsArray_total elements o)
    rw [hr2, exceptBind_ok]
    split
    · exact hp2
    · exact fun h => nomatch h

/-! ## Typed data model

`Plant`, `Terrain`, `Structure` and `DrawingElement` are declared in
`@/types/canvasTypes`, which is not among the provided sources.  Modelled
from the spec: the shapes follow section 3 of the specification and the
field lists that `createExportData` copies and `calculateProjectStatistics`
reads.  Numbers are finite rationals here (the idealization of doubles used
throughout); an optional field that is absent or `undefined` is
`Option.none`.  The Lean keyword `structure` cannot be a field or
constructor name, so the structure-typed payload field is `struct` and the
type tag is `ElementType.structure'`. -/

/-- A `{width, height}` pair. -/
structure CanvasSize where
  width : ℚ
  height : ℚ
  deriving DecidableEq, Repr

/-- `Plant` reference data. -/
structure Plant where
  id : String
  name : String
  spacing : String
  category : String
  color : String
  deriving DecidableEq, Repr

/-- `Terrain` reference data. -/
structure Terrain where
  id : String
  name : String
  category : String
  color : String
  brushThickness : Option ℚ := none
  deriving DecidableEq, Repr

/-- `Structure` reference data. -/
structure Structure where
  id : String
  name : String
  category : String
  color : String
  size : CanvasSize
  deriving DecidableEq, Repr

/-- The element type tag. -/
inductive ElementType where
  | plant
  | terrain
  | structure'
  | rectangle
  | circle
  deriving DecidableEq, Repr

/-- The tag as the string stored in the `type` field. -/
def ElementType.toJsType : ElementType → String
  | .plant => "plant"
  | .terrain => "terrain"
  | .structure' => "structure"
  | .rectangle => "rectangle"
  | .circle => "circle"

/-- A `DrawingElement`. -/
structure DrawingElement where
  id : ℚ
  type : ElementType
  x : ℚ
  y : ℚ
  width : Option ℚ := none
  height : Option ℚ := none
  radius : Option ℚ := none
  rotation : Option ℚ := none
  plant : Option Plant := none
  terrain : Option Terrain := none
  struct : Option Structure := none
  realWorldWidth : Option ℚ := none
  realWorldHeight : Option ℚ := none
  brushType : Option String := none
  texture : Option String := none
  pathPoints : Option (List (ℚ × ℚ)) := none
  selectedBrushMode : Option String := none
  brushThickness : Option ℚ := none
  selected : Option Bool := none
  deriving DecidableEq, Repr

/-! ## Persistence store (`dataPersistence.ts`)

The storage substrate holds three slots relevant to the claims:
`agroecologia-current-project`, `agroecolia-project-history` and
`agroecologia-last-save`.  A slot is `Option`-valued (`none` = key absent).
Stored JSON text is modelled by the stored value itself (`JSON.stringify`
on these documents is injective and `JSON.parse` recovers them).  The
current wall-clock values `new Date().toISOString()` and `Date.now()` are
passed as explicit `nowIso`/`nowMs` arguments. -/

/-- `metadata` of a `ProjectData`. -/
structure ProjectMetadata where
  elementsCount : ℚ
  totalArea : Option ℚ := none
  projectInfo : Option String := none
  tags : Option (List String) := none
  deriving DecidableEq, Repr

/-- `interface ProjectData`. -/
structure ProjectData where
  version : String
  timestamp : ℚ
  lastModified : String
  canvasSize : CanvasSize
  elements : List DrawingElement
  selectedTool : String
  selectedPlant : Option Plant := none
  selectedTerrain : Option Terrain := none
  selectedStructure : Option Structure := none
  metadata : ProjectMetadata
  deriving DecidableEq, Repr

/-- `interface ProjectHistoryEntry`. -/
structure ProjectHistoryEntry where
  id : String
  name : String
  timestamp : ℚ
  lastModified : String
  canvasSize : CanvasSize
  elementsCount : ℕ
  thumbnail : Option String := none
  tags : Option (List String) := none
  deriving DecidableEq, Repr

/-- The three storage slots the claims are about. -/
structure Store where
  current : Option ProjectData := none
  history : Option (List ProjectHistoryEntry) := none
  lastSave : Option ℕ := none
  deriving DecidableEq, Repr

/-- `validateProjectData` restricted to a well-typed `ProjectData`: the
required fields exist and `canvasSize`/`elements` are correctly shaped by
construction, so of the dynamic checks only the timestamp test can fail
(`project.timestamp <= 0`; a typed finite timestamp passes exactly when it
is positive).  The full dynamic check on arbitrary values is
`validateProjectDataDyn` below. -/
def validateProjectData (project : ProjectData) : Bool :=
  decide (0 < project.timestamp)

/-- `getProjectHistory`: a missing (or unreadable) history slot reads as the
empty sequence. -/
def getProjectHistory (s : Store) : List ProjectHistoryEntry :=
  s.history.getD []

/-- The call `generateProjectId()` as written in `addToProjectHistory`:
`generateProjectId` declares a required `project` parameter, but this call
site passes none, so `project` is `undefined` inside the function body and
the read `project.timestamp` throws a `TypeError` before any id is
produced. -/
def generateProjectIdNoArg : Except JsError String :=
  .error .typeError

/-- The history entry name; the source formats the project timestamp as a
pt-BR locale date and time.  The exact text is irrelevant to every claim
(the entry construction is unreachable besides, see
`addToProjectHistory`). -/
def generateProjectName (project : ProjectData) : String :=
  "Projeto " ++ jsNumToString project.timestamp

/-- `addToProjectHistory`: reads the history and builds the new entry, whose
first field evaluates `generateProjectId()`.  That call always throws (see
`generateProjectIdNoArg`), the surrounding `try`/`catch` logs and swallows
the exception, and the history slot is never written — the prepend-and-cap
code below the id computation is dead. -/
def addToProjectHistory (project : ProjectData) (s : Store) : Store :=
  match generateProjectIdNoArg with
  | .error _ => s
  | .ok pid =>
    let entry : ProjectHistoryEntry :=
      { id := pid
        name := generateProjectName project
        timestamp := project.timestamp
        lastModified := project.lastModified
        canvasSize := project.canvasSize
        elementsCount := project.elements.length
        tags := project.metadata.tags }
    { s with history := some ((entry :: getProjectHistory s).take 50) }

/-- `saveCurrentProject` on a well-typed project.  The in-place mutation of
the caller's object (`project.lastModified = ...` and
`project.metadata.elementsCount = ...`) is modelled by returning the
caller's object after the call as the third component. -/
def saveCurrentProject (nowIso : String) (nowMs : ℕ) (project : ProjectData) (s : Store) :
    Bool × Store × ProjectData :=
  if !validateProjectData project then (false, s, project)
  else
    let project2 : ProjectData := { project with
      lastModified := nowIso
      metadata := { project.metadata with elementsCount := (project.elements.length : ℚ) } }
    let s2 : Store := { s with current := some project2, lastSave := some nowMs }
    (true, addToProjectHistory project2 s2, project2)

/-- `deleteProjectFromHistory`. -/
def deleteProjectFromHistory (projectId : String) (s : Store) : Bool × Store :=
  let history := getProjectHistory s
  let filteredHistory := history.filter (fun entry => entry.id ≠ projectId)
  if filteredHistory.length = history.length then (false, s)
  else (true, { s with history := some filteredHistory })

/-! ## Dynamic persistence layer

`validateProjectData` and the failure path of `saveCurrentProject` on
arbitrary JavaScript values, for the claims about malformed input. -/

/-- The `requiredFields` list of `validateProjectData`. -/
def requiredProjectFields : List String :=
  ["version", "timestamp", "canvasSize", "elements", "selectedTool"]

/-- `validateProjectData` on an arbitrary value.  The source returns on the
first missing field (logging it); `List.all` computes the same boolean.  All
property reads are performed on a value already checked to be a truthy
object, so none can throw. -/
def validateProjectDataDyn (project : JsValue) : Bool :=
  if !truthy project || typeofJs project != "object" then false
  else if !(requiredProjectFields.all (jsHasField project)) then false
  else
    let cs := objGet project "canvasSize"
    if !truthy cs || typeofJs cs != "object" then false
    else if typeofJs (objGet cs "width") != "number" || typeofJs (objGet cs "height") != "number" then false
    else if !isArrayV (objGet project "elements") then false
    else
      let ts := objGet project "timestamp"
      if typeofJs ts != "number" || jvLeQ ts 0 then false
      else true

/-- The storage slots holding raw (dynamic) values. -/
structure DynStore where
  current : Option JsValue := none
  history : Option JsValue := none
  lastSave : Option ℕ := none

/-- JavaScript property assignment on an object literal: an existing key is
updated in place, a new key is appended. -/
def jsSetField : List (String × JsValue) → String → JsValue → List (String × JsValue)
  | [], k, v => [(k, v)]
  | (k', v') :: rest, k, v =>
    if k' = k then (k, v) :: rest else (k', v') :: jsSetField rest k v

/-- `array.length` of a value known to be an array. -/
def arrLenV : JsValue → ℕ
  | .vArr xs => xs.length
  | _ => 0

/-- `addToProjectHistory` at the dynamic level: the identity on the store,
for the reason documented at `addToProjectHistory` (the entry construction
throws inside the swallowed `try`/`catch` before the slot is written). -/
def addToProjectHistoryDyn (s : DynStore) : DynStore := s

/-- `saveCurrentProject` on an arbitrary value.  When validation fails the
function returns `false` before touching the store.  When validation
passes, the source first mutates the caller's object: `lastModified` is
set, then `project.metadata.elementsCount` — which throws (caught by the
outer `try`, returning `false` with no slot written) unless `metadata` is
an object (an array-valued `metadata`, whose named properties this model
does not represent, is also treated as the throwing case; no claim reaches
it).  On the success path the current-project and last-save slots are
written and `addToProjectHistory` runs (and leaves history unchanged). -/
def saveCurrentProjectDyn (nowIso : String) (nowMs : ℕ) (project : JsValue) (s : DynStore) :
    Bool × DynStore × JsValue :=
  if !validateProjectDataDyn project then (false, s, project)
  else
    match project with
    | .vObj fs =>
      let fs1 := jsSetField fs "lastModified" (.vStr nowIso)
      match (fs1.lookup "metadata").getD .vUndefined with
      | .vObj ms =>
        let count : ℚ := arrLenV ((fs1.lookup "elements").getD .vUndefined)
        let fs2 := jsSetField fs1 "metadata" (.vObj (jsSetField ms "elementsCount" (.vNum (.num count))))
        let p2 : JsValue := .vObj fs2
        (true, addToProjectHistoryDyn { s with current := some p2, lastSave := some nowMs }, p2)
      | _ => (false, s, .vObj fs1)
    | _ => (false, s, project)

/-! ## Export/import codec (`exportUtils.ts`)

`createExportData` is pure except for its timestamps and locale-formatted
date, which are explicit arguments here (`nowMs`, `localeDate`, `nowIso`).
`importProjectFromJSON` composed with `JSON.stringify` of a document
produced here reduces to `validateExportData`: parsing the serialization
succeeds and returns the same document, an optional field holding
`undefined` being dropped by `JSON.stringify` and reading back as absent —
both are `Option.none` in this model. -/

/-- `projectInfo.categories` of an `ExportData`. -/
structure Categories where
  plants : ℕ
  terrain : ℕ
  structures : ℕ
  shapes : ℕ
  deriving DecidableEq, Repr

/-- `projectInfo` of an `ExportData`. -/
structure ProjectInfo where
  name : String
  description : String
  canvasSize : CanvasSize
  totalElements : ℕ
  categories : Categories
  deriving DecidableEq, Repr

/-- `metadata.coordinates` of an `ExportData`. -/
structure ExportCoordinates where
  system : String
  originX : ℚ
  originY : ℚ
  deriving DecidableEq, Repr

/-- `metadata` of an `ExportData`. -/
structure ExportMetadata where
  exportDate : String
  exportedBy : String
  coordinates : ExportCoordinates
  deriving DecidableEq, Repr

/-- `interface ExportElement` (a `DrawingElement` without the UI-only
`selected` flag). -/
structure ExportElement where
  id : ℚ
  type : ElementType
  x : ℚ
  y : ℚ
  width : Option ℚ := none
  height : Option ℚ := none
  radius : Option ℚ := none
  rotation : Option ℚ := none
  plant : Option Plant := none
  terrain : Option Terrain := none
  struct : Option Structure := none
  realWorldWidth : Option ℚ := none
  realWorldHeight : Option ℚ := none
  brushType : Option String := none
  texture : Option String := none
  pathPoints : Option (List (ℚ × ℚ)) := none
  selectedBrushMode : Option String := none
  brushThickness : Option ℚ := none
  deriving DecidableEq, Repr

/-- `interface ExportData`. -/
structure ExportData where
  version : String
  timestamp : ℚ
  projectInfo : ProjectInfo
  elements : List ExportElement
  metadata : ExportMetadata
  deriving DecidableEq, Repr

/-- The per-element field copy inside `createExportData`. -/
def toExportElement (el : DrawingElement) : ExportElement :=
  { id := el.id
    type := el.type
    x := el.x
    y := el.y
    width := el.width
    height := el.height
    radius := el.radius
    rotation := el.rotation
    plant := el.plant
    terrain := el.terrain
    struct := el.struct
    realWorldWidth := el.realWorldWidth
    realWorldHeight := el.realWorldHeight
    brushType := el.brushType
    texture := el.texture
    pathPoints := el.pathPoints
    selectedBrushMode := el.selectedBrushMode
    brushThickness := el.brushThickness }

/-- `createExportData`.  `projectName || default` falls back on an absent or
empty name (JavaScript truthiness of strings). -/
def createExportData (elements : List DrawingElement) (canvasSize : CanvasSize)
    (projectName : Option String) (nowMs : ℚ) (localeDate : String) (nowIso : String) :
    ExportData :=
  let categories : Categories :=
    { plants := (elements.filter (fun el => el.type = .plant)).length
      terrain := (elements.filter (fun el => el.type = .terrain)).length
      structures := (elements.filter (fun el => el.type = .structure')).length
      shapes := (elements.filter (fun el => el.type = .rectangle ∨ el.type = .circle)).length }
  let exportElements : List ExportElement := elements.map toExportElement
  { version := "1.0"
    timestamp := nowMs
    projectInfo :=
      { name :=
          match projectName with
          | some n => if n != "" then n else "Projeto Agroecológico " ++ localeDate
          | none => "Projeto Agroecológico " ++ localeDate
        description := "Projeto com " ++ toString elements.length ++ " elementos em área de " ++
          jsNumToString canvasSize.width ++ "x" ++ jsNumToString canvasSize.height ++ " metros"
        canvasSize := canvasSize
        totalElements := elements.length
        categories := categories }
    elements := exportElements
    metadata :=
      { exportDate := nowIso
        exportedBy := "Agroecologia Desenhada v1.0"
        coordinates := { system := "meters", originX := 0, originY := 0 } } }

/-- The radius test of `validateExportElement`: present and negative (a
present typed radius is a number, so only the sign test can reject). -/
def exportRadiusBad : Option ℚ → Bool
  | some r => decide (r < 0)
  | none => false

/-- The width/height test of `validateExportElement`: both must be present
numbers and non-negative (`typeof undefined !== 'number'` makes a missing
partner fail). -/
def exportDimsOk : Option ℚ → Option ℚ → Bool
  | some w, some h => decide (0 ≤ w) && decide (0 ≤ h)
  | _, _ => false

/-- `validateExportElement` on a well-typed `ExportElement`: the required
fields (`id`, `type`, `x`, `y`) are present, the type tag is one of the five
valid strings and the coordinates are numbers by construction, so only the
dimension checks can reject. -/
def validateExportElement (element : ExportElement) : Bool :=
  if element.type == .circle && element.radius.isSome && exportRadiusBad element.radius then
    false
  else if (element.type == .rectangle || element.type == .terrain) &&
      (element.width.isSome || element.height.isSome) &&
      !exportDimsOk element.width element.height then
    false
  else true

/-- `validateExportData` on a well-typed document: the five top-level fields
exist, `projectInfo.canvasSize` is an object and `elements` is an array by
construction, so the document is valid exactly when every element is. -/
def validateExportData (data : ExportData) : Bool :=
  data.elements.all validateExportElement

/-- `importProjectFromJSON (JSON.stringify d)` for a document `d` produced
by `createExportData`: the parse succeeds and returns `d` itself, so
the import returns `d` when `validateExportData` accepts it and `null`
(`none`) otherwise. -/
def importExportRoundTrip (d : ExportData) : Option ExportData :=
  if validateExportData d then some d else none

/-! ## Project statistics (`calculateProjectStatistics`) -/

/-- The `stats` record of `calculateProjectStatistics`. -/
structure ProjectStatistics where
  total : ℕ
  plants : ℕ
  terrain : ℕ
  structures : ℕ
  shapes : ℕ
  selected : ℕ
  totalArea : ℚ
  averageSpacing : ℚ
  deriving DecidableEq, Repr

/-- The `switch` on the element type inside the loop of
`calculateProjectStatistics`, including the terrain-area accumulation; the
area is added only when both real-world dimensions are present and nonzero
(JavaScript truthiness of numbers). -/
def statsTypeStep (stats : ProjectStatistics) (element : DrawingElement) : ProjectStatistics :=
  match element.type with
  | .plant => { stats with plants := stats.plants + 1 }
  | .terrain =>
    let stats := { stats with terrain := stats.terrain + 1 }
    match element.realWorldWidth, element.realWorldHeight with
    | some w, some h =>
      if w ≠ 0 ∧ h ≠ 0 then { stats with totalArea := stats.totalArea + w * h } else stats
    | _, _ => stats
  | .structure' => { stats with structures := stats.structures + 1 }
  | .rectangle => { stats with shapes := stats.shapes + 1 }
  | .circle => { stats with shapes := stats.shapes + 1 }

/-- The selected-element counter inside the loop. -/
def statsSelectedStep (stats : ProjectStatistics) (element : DrawingElement) : ProjectStatistics :=
  if element.selected == some true then { stats with selected := stats.selected + 1 } else stats

/-- The spacing accumulation inside the loop: a present plant with a
nonempty (truthy) spacing string matching the unanchored
`<num>x<num>(cm|m)` pattern contributes the mean of the pair in meters. -/
def statsSpacingStep (stats : ProjectStatistics) (element : DrawingElement) : ProjectStatistics :=
  match element.plant with
  | some p =>
    if p.spacing != "" then
      match searchSpacingXY p.spacing.toList with
      | some (w, h, isCm) =>
        let metersWidth := if isCm then w / 100 else w
        let metersHeight := if isCm then h / 100 else h
        { stats with averageSpacing := stats.averageSpacing + (metersWidth + metersHeight) / 2 }
      | none => stats
    else stats
  | none => stats

/-- One iteration of the element loop of `calculateProjectStatistics`: the
three independent updates of the loop body, in source order. -/
def statsStep (stats : ProjectStatistics) (element : DrawingElement) : ProjectStatistics :=
  statsSpacingStep (statsSelectedStep (statsTypeStep stats element) element) element

/-- `calculateProjectStatistics`: the loop over the elements, then the final
division of the accumulated spacing by the number of plant-typed
elements — not by the number of elements that contributed a spacing. -/
def calculateProjectStatistics (elements : List DrawingElement) : ProjectStatistics :=
  let stats := elements.foldl statsStep
    { total := elements.length, plants := 0, terrain := 0, structures := 0,
      shapes := 0, selected := 0, totalArea := 0, averageSpacing := 0 }
  if stats.plants > 0 then
    { stats with averageSpacing := stats.averageSpacing / (stats.plants : ℚ) }
  else stats

/-! ## Claims about the persistence store -/

instance {ε α : Type} [DecidableEq ε] [DecidableEq α] : DecidableEq (Except ε α) := fun a b =>
  match a, b with
  | .ok x, .ok y => if h : x = y then .isTrue (by rw [h]) else .isFalse (by simp [h])
  | .error x, .error y => if h : x = y then .isTrue (by rw [h]) else .isFalse (by simp [h])
  | .ok _, .error _ => .isFalse (by simp)
  | .error _, .ok _ => .isFalse (by simp)

/-- C3: a project that fails the ProjectData structural check is rejected by
saveCurrentProject before any write: the result is failure, the store (its
current-project, last-save and history slots) is unchanged, and the caller's
object is not even mutated. -/
theorem C3_invalid_project_not_written (nowIso : String) (nowMs : ℕ)
    (project : JsValue) (s : DynStore)
    (h : validateProjectDataDyn project = false) :
    saveCurrentProjectDyn nowIso nowMs project s = (false, s, project) := by
  simp [saveCurrentProjectDyn, h]

theorem C3_witness :
    validateProjectDataDyn (.vObj [("version", .vStr "1")]) = false ∧
    saveCurrentProjectDyn "2026-01-01T00:00:00.000Z" 1000 (.vObj [("version", .vStr "1")])
      { current := none, history := none, lastSave := none } =
      (false, { current := none, history := none, lastSave := none }, .vObj [("version", .vStr "1")]) :=
  ⟨rfl, C3_invalid_project_not_written "2026-01-01T00:00:00.000Z" 1000 _ _ rfl⟩

/-- A small valid project used by concrete theorems. -/
def sampleProject : ProjectData :=
  { version := "1.0.0"
    timestamp := 1700000000000
    lastModified := "2023-11-14T22:13:20.000Z"
    canvasSize := { width := 50, height := 30 }
    elements := []
    selectedTool := "select"
    metadata := { elementsCount := 0 } }

/-- C4: the history slot is never changed by a save — `addToProjectHistory`
always throws internally (the `generateProjectId()` call passes no argument
for a required parameter) and the exception is swallowed.  In particular the
save of a valid project into an empty store succeeds yet leaves the history
slot empty, where the spec requires the derived entry first. -/
theorem C4_history_unchanged_on_save :
    (∀ (nowIso : String) (nowMs : ℕ) (p : ProjectData) (s : Store),
      (saveCurrentProject nowIso nowMs p s).2.1.history = s.history) ∧
    (saveCurrentProject "2026-01-01T00:00:00.000Z" 1000 sampleProject {}).1 = true ∧
    (saveCurrentProject "2026-01-01T00:00:00.000Z" 1000 sampleProject {}).2.1.history = none := by
  refine ⟨fun nowIso nowMs p s => ?_, by decide, by decide⟩
  by_cases h : validateProjectData p
  · simp [saveCurrentProject, h, addToProjectHistory, generateProjectIdNoArg]
  · simp [saveCurrentProject, h]

/-- C5: a structurally valid project whose metadata.elementsCount disagrees
with elements.length still saves successfully, and the stored project's
elementsCount is recomputed to elements.length. -/
theorem C5_elements_count_recomputed (nowIso : String) (nowMs : ℕ)
    (p : ProjectData) (s : Store)
    (hvalid : validateProjectData p = true)
    (_hdiff : p.metadata.elementsCount ≠ (p.elements.length : ℚ)) :
    (saveCurrentProject nowIso nowMs p s).1 = true ∧
    ∃ p2, (saveCurrentProject nowIso nowMs p s).2.1.current = some p2 ∧
      p2.metadata.elementsCount = (p.elements.length : ℚ) := by
  refine ⟨by simp [saveCurrentProject, hvalid], ?_⟩
  refine ⟨{ p with
      lastModified := nowIso
      metadata := { p.metadata with elementsCount := (p.elements.length : ℚ) } }, ?_, rfl⟩
  simp [saveCurrentProject, hvalid, addToProjectHistory, generateProjectIdNoArg]

theorem C5_witness :
    validateProjectData { sampleProject with metadata := { elementsCount := 99 } } = true ∧
    { sampleProject with metadata := { elementsCount := 99 } }.metadata.elementsCount ≠
      (({ sampleProject with metadata := { elementsCount := 99 } } : ProjectData).elements.length : ℚ) ∧
    ((saveCurrentProject "t" 5 { sampleProject with metadata := { elementsCount := 99 } } {}).1 = true ∧
      ∃ p2, (saveCurrentProject "t" 5 { sampleProject with metadata := { elementsCount := 99 } } {}).2.1.current = some p2 ∧
        p2.metadata.elementsCount =
          (({ sampleProject with metadata := { elementsCount := 99 } } : ProjectData).elements.length : ℚ)) :=
  ⟨by decide, by decide,
    C5_elements_count_recomputed "t" 5 _ _ (by decide) (by decide)⟩

/-- C9: a successful save overwrites exactly lastModified (to the save
instant) and metadata.elementsCount (to elements.length) on the caller's
project object; every other field is unchanged. -/
theorem C9_save_frame (nowIso : String) (nowMs : ℕ) (p : ProjectData) (s : Store)
    (hsuccess : (saveCurrentProject nowIso nowMs p s).1 = true) :
    (saveCurrentProject nowIso nowMs p s).2.2.lastModified = nowIso ∧
    (saveCurrentProject nowIso nowMs p s).2.2.metadata.elementsCount = (p.elements.length : ℚ) ∧
    (saveCurrentProject nowIso nowMs p s).2.2.version = p.version ∧
    (saveCurrentProject nowIso nowMs p s).2.2.timestamp = p.timestamp ∧
    (saveCurrentProject nowIso nowMs p s).2.2.canvasSize = p.canvasSize ∧
    (saveCurrentProject nowIso nowMs p s).2.2.elements = p.elements ∧
    (saveCurrentProject nowIso nowMs p s).2.2.selectedTool = p.selectedTool ∧
    (saveCurrentProject nowIso nowMs p s).2.2.selectedPlant = p.selectedPlant ∧
    (saveCurrentProject nowIso nowMs p s).2.2.selectedTerrain = p.selectedTerrain ∧
    (saveCurrentProject nowIso nowMs p s).2.2.selectedStructure = p.selectedStructure ∧
    (saveCurrentProject nowIso nowMs p s).2.2.metadata.totalArea = p.metadata.totalArea ∧
    (saveCurrentProject nowIso nowMs p s).2.2.metadata.projectInfo = p.metadata.projectInfo ∧
    (saveCurrentProject nowIso nowMs p s).2.2.metadata.tags = p.metadata.tags := by
  by_cases h : validateProjectData p
  · simp [saveCurrentProject, h, addToProjectHistory, generateProjectIdNoArg]
  · simp [saveCurrentProject, h] at hsuccess

theorem C9_witness :
    ((saveCurrentProject "NOW" 7 sampleProject {}).1 = true) ∧
    (saveCurrentProject "NOW" 7 sampleProject {}).2.2.lastModified = "NOW" ∧
    (saveCurrentProject "NOW" 7 sampleProject {}).2.2.timestamp = sampleProject.timestamp :=
  ⟨by decide, (C9_save_frame "NOW" 7 sampleProject {} (by decide)).1,
    (C9_save_frame "NOW" 7 sampleProject {} (by decide)).2.2.2.1⟩

/-- Two history entries sharing the id "a". -/
def dupHistory : List ProjectHistoryEntry :=
  [{ id := "a", name := "first", timestamp := 1, lastModified := "l1",
     canvasSize := { width := 1, height := 1 }, elementsCount := 0 },
   { id := "a", name := "second", timestamp := 2, lastModified := "l2",
     canvasSize := { width := 2, height := 2 }, elementsCount := 0 }]

/-- C6 counterexample: on a stored history holding two entries with the same
id, deletion of that id succeeds but removes both entries, not exactly
one — the persisted sequence is empty where the claim requires one
survivor. -/
theorem C6_duplicate_ids_all_removed :
    (deleteProjectFromHistory "a" { history := some dupHistory }).1 = true ∧
    (deleteProjectFromHistory "a" { history := some dupHistory }).2.history = some [] ∧
    dupHistory.length = 2 := by
  refine ⟨by decide, ?_, by decide⟩
  decide

/-- On a history whose ids are distinct, filtering out one present id drops
exactly one entry. -/
theorem filter_ne_length_succ (pid : String) (l : List ProjectHistoryEntry)
    (hnd : (l.map ProjectHistoryEntry.id).Nodup)
    (e0 : ProjectHistoryEntry) (he0 : e0 ∈ l) (hid : e0.id = pid) :
    (l.filter (fun e => e.id ≠ pid)).length + 1 = l.length := by
  induction l with
  | nil => simp at he0
  | cons a t ih =>
    simp only [List.map_cons, List.nodup_cons] at hnd
    rcases List.mem_cons.mp he0 with h0 | h0
    · have hknown : ∀ e ∈ t, e.id ≠ pid := by
        intro e he hcontra
        exact hnd.1 (by rw [← h0, hid, ← hcontra] at *; exact List.mem_map_of_mem _ he)
      have hft : t.filter (fun e => decide (e.id ≠ pid)) = t :=
        List.filter_eq_self.mpr (fun e he => by simpa using hknown e he)
      have hfa : (decide (a.id ≠ pid)) = false := by simp [← h0, hid]
      simp only [List.filter_cons, hfa, Bool.false_eq_true, if_false, hft, List.length_cons]
    · have ha : a.id ≠ pid := by
        intro hcontra
        exact hnd.1 (by rw [hcontra, ← hid] at *; exact List.mem_map_of_mem _ h0)
      have hfa : (decide (a.id ≠ pid)) = true := by simp [ha]
      have hih := ih hnd.2 h0
      simp only [List.filter_cons, hfa, if_true, List.length_cons]
      omega

/-- Filtering an id out of a history keeps its length exactly when no entry
carries the id. -/
theorem filter_ne_length_eq_iff (pid : String) (l : List ProjectHistoryEntry) :
    (l.filter (fun e => e.id ≠ pid)).length = l.length ↔ ∀ e ∈ l, e.id ≠ pid := by
  constructor
  · intro h e he
    have hs := List.filter_sublist (p := fun e => decide (e.id ≠ pid)) l
    have heq := hs.eq_of_length h
    have hmem : e ∈ l.filter (fun e => decide (e.id ≠ pid)) := by rw [heq]; exact he
    simpa using List.of_mem_filter hmem
  · intro h
    rw [List.filter_eq_self.mpr (fun a ha => by simpa using h a ha)]

/-- C6 amended. -/
theorem C6_amended_delete (projectId : String) (s : Store) :
    ((deleteProjectFromHistory projectId s).1 = false ↔
      ∀ e ∈ getProjectHistory s, e.id ≠ projectId) ∧
    ((deleteProjectFromHistory projectId s).1 = false →
      (deleteProjectFromHistory projectId s).2 = s) ∧
    ((deleteProjectFromHistory projectId s).1 = true →
      (deleteProjectFromHistory projectId s).2.history =
        some ((getProjectHistory s).filter (fun e => e.id ≠ projectId))) ∧
    ((deleteProjectFromHistory projectId s).1 = true →
      ((getProjectHistory s).map ProjectHistoryEntry.id).Nodup →
      ((deleteProjectFromHistory projectId s).2.history.getD []).length + 1 =
        (getProjectHistory s).length) := by
  have hunf : deleteProjectFromHistory projectId s =
      (if ((getProjectHistory s).filter (fun e => e.id ≠ projectId)).length =
          (getProjectHistory s).length
       then (false, s)
       else (true, { s with
         history := some ((getProjectHistory s).filter (fun e => e.id ≠ projectId)) })) := rfl
  rw [hunf]
  by_cases hc : ((getProjectHistory s).filter (fun e => e.id ≠ projectId)).length =
      (getProjectHistory s).length
  · rw [if_pos hc]
    refine ⟨?_, fun _ => rfl, ?_, ?_⟩
    · simpa using (filter_ne_length_eq_iff projectId (getProjectHistory s)).mp hc
    · intro ht
      simp at ht
    · intro ht _
      simp at ht
  · rw [if_neg hc]
    refine ⟨?_, ?_, fun _ => rfl, fun _ hnd => ?_⟩
    · constructor
      · intro hfalse
        simp at hfalse
      · intro hall
        exact absurd ((filter_ne_length_eq_iff projectId (getProjectHistory s)).mpr hall) hc
    · intro hf
      simp at hf
    · have hex : ∃ e ∈ getProjectHistory s, e.id = projectId := by
        by_contra hno
        push_neg at hno
        exact hc ((filter_ne_length_eq_iff projectId (getProjectHistory s)).mpr hno)
      obtain ⟨e0, he0, hid⟩ := hex
      simpa using filter_ne_length_succ projectId (getProjectHistory s) hnd e0 he0 hid

/-- A history with distinct ids for the amended-claim witness. -/
def distinctHistory : List ProjectHistoryEntry :=
  [{ id := "a", name := "first", timestamp := 1, lastModified := "l1",
     canvasSize := { width := 1, height := 1 }, elementsCount := 0 },
   { id := "b", name := "second", timestamp := 2, lastModified := "l2",
     canvasSize := { width := 2, height := 2 }, elementsCount := 0 }]

theorem C6_amended_witness :
    ((deleteProjectFromHistory "b" { history := some distinctHistory }).1 = true) ∧
    (deleteProjectFromHistory "b" { history := some distinctHistory }).2.history =
      some (distinctHistory.filter (fun e => e.id ≠ "b")) :=
  ⟨by decide, (C6_amended_delete "b" { history := some distinctHistory }).2.2.1 (by decide)⟩

/-! ## Claims about the validators and the export codec -/

/-- C10: an element object whose id field holds the number 0 is rejected by
the truthiness check before the type test, with the id error. -/
theorem C10_zero_id_rejected (fs : List (String × JsValue))
    (h : fs.lookup "id" = some (.vNum (.num 0))) :
    validateDrawingElement (.vObj fs) =
      .ok { isValid := false, error := some "Element ID is required and must be a number" } := by
  simp [validateDrawingElement, jsGet, objGet, h, truthy, typeofJs, JNum.truthyJ, exceptBind_ok]

theorem C10_witness :
    validateDrawingElement (.vObj [("id", .vNum (.num 0)), ("type", .vStr "plant"),
      ("x", .vNum (.num 1)), ("y", .vNum (.num 1))]) =
      .ok { isValid := false, error := some "Element ID is required and must be a number" } :=
  C10_zero_id_rejected _ rfl

/-- C8: every validator, on every input (null, primitives, arrays, arbitrary
objects), terminates with an `Except.ok` ValidationResult — never a thrown
exception — and an invalid result always carries an error message.  The
validators are pure functions of their input in this embedding, so the input
is not mutated by construction. -/
theorem C8_validators_total (v : JsValue) (o : CanvasValidationOptions) :
    (∃ r, validatePlant v = .ok r ∧ (r.isValid = false → r.error.isSome = true)) ∧
    (∃ r, validateTerrain v = .ok r ∧ (r.isValid = false → r.error.isSome = true)) ∧
    (∃ r, validateStructure v = .ok r ∧ (r.isValid = false → r.error.isSome = true)) ∧
    (∃ r, validateDrawingElement v = .ok r ∧ (r.isValid = false → r.error.isSome = true)) ∧
    (∃ r, validateCanvasSize v o = .ok r ∧ (r.isValid = false → r.error.isSome = true)) ∧
    (∃ r, validateElementsArray v o = .ok r ∧ (r.isValid = false → r.error.isSome = true)) :=
  ⟨(resultTotalOk_iff _).mp (validatePlant_total v),
   (resultTotalOk_iff _).mp (validateTerrain_total v),
   (resultTotalOk_iff _).mp (validateStructure_total v),
   (resultTotalOk_iff _).mp (validateDrawingElement_total v),
   (resultTotalOk_iff _).mp (validateCanvasSize_total v o),
   (resultTotalOk_iff _).mp (validateElementsArray_total v o)⟩

theorem C8_witness :
    ∃ r, validatePlant .vNull = .ok r ∧ (r.isValid = false → r.error.isSome = true) :=
  (C8_validators_total .vNull {}).1

/-- A rectangle with a width but no height: exported as-is, it fails
the import-side element check. -/
def oneSidedRectangle : DrawingElement :=
  { id := 1, type := .rectangle, x := 0, y := 0, width := some 5 }

/-- C2 counterexample: the round trip of a one-sided rectangle yields
`null`/absent, not a present ExportData — `validateExportElement` demands
both width and height once either is present on a rectangle or terrain
element. -/
theorem C2_one_sided_rectangle_rejected :
    importExportRoundTrip (createExportData [oneSidedRectangle] { width := 50, height := 30 }
      none 1700000000000 "14/11/2023" "2023-11-14T22:13:20.000Z") = none := rfl

/-- C2 amended: when every element passes the import-side dimension check
(circle radius non-negative if present; width and height both present and
non-negative on a rectangle or terrain element once either is present), the
round trip yields a present document whose totalElements is the length of E
and whose category counts are the direct tallies of E by type. -/
theorem C2_amended_roundtrip (elements : List DrawingElement) (canvasSize : CanvasSize)
    (projectName : Option String) (nowMs : ℚ) (localeDate nowIso : String)
    (h : ∀ el ∈ elements, validateExportElement (toExportElement el) = true) :
    ∃ d, importExportRoundTrip
        (createExportData elements canvasSize projectName nowMs localeDate nowIso) = some d ∧
      d.projectInfo.totalElements = elements.length ∧
      d.projectInfo.categories.plants = elements.countP (fun el => el.type = .plant) ∧
      d.projectInfo.categories.terrain = elements.countP (fun el => el.type = .terrain) ∧
      d.projectInfo.categories.structures = elements.countP (fun el => el.type = .structure') ∧
      d.projectInfo.categories.shapes =
        elements.countP (fun el => el.type = .rectangle ∨ el.type = .circle) := by
  have hall : validateExportData
      (createExportData elements canvasSize projectName nowMs localeDate nowIso) = true := by
    simp only [validateExportData, createExportData]
    rw [List.all_eq_true]
    intro x hx
    rcases List.mem_map.mp hx with ⟨el, hel, rfl⟩
    exact h el hel
  refine ⟨createExportData elements canvasSize projectName nowMs localeDate nowIso,
    by simp [importExportRoundTrip, hall], rfl, ?_, ?_, ?_, ?_⟩ <;>
    simp [createExportData, List.countP_eq_length_filter]

theorem C2_amended_witness :
    ∃ d, importExportRoundTrip (createExportData
        [{ id := 1, type := .plant, x := 0, y := 0 },
         { id := 2, type := .rectangle, x := 1, y := 1, width := some 5, height := some 2 }]
        { width := 50, height := 30 } none 1700000000000 "d" "i") = some d ∧
      d.projectInfo.totalElements = 2 ∧
      d.projectInfo.categories.plants = 1 ∧
      d.projectInfo.categories.terrain = 0 ∧
      d.projectInfo.categories.structures = 0 ∧
      d.projectInfo.categories.shapes = 1 :=
  C2_amended_roundtrip _ _ _ _ _ _ (by decide)

/-! ## Claims about the project statistics -/

/-- The spacing of a plant in meters as the claim reads section 3: any of
the four formats parses, centimeters convert to meters, and a pair
contributes the mean of its two numbers. -/
def spec3SpacingMeters (s : String) : Option ℚ :=
  match parseSpacingAnchored s with
  | some (a, some b, isCm) =>
    some (((if isCm then a / 100 else a) + (if isCm then b / 100 else b)) / 2)
  | some (a, none, isCm) => some (if isCm then a / 100 else a)
  | none => none

/-- The average the claim asserts: the mean over exactly the elements that
have a plant with a parseable spacing (0 when there are none). -/
def claimedAverageSpacing (elements : List DrawingElement) : ℚ :=
  let vals := elements.filterMap (fun el => el.plant.bind (fun p => spec3SpacingMeters p.spacing))
  if vals.length = 0 then 0 else vals.sum / (vals.length : ℚ)

/-- A plant-typed element whose plant spacing uses the single-number
section-3 format. -/
def plant2mElement : DrawingElement :=
  { id := 1, type := .plant, x := 0, y := 0,
    plant := some { id := "p1", name := "Tomato", spacing := "2m",
                    category := "vegetables", color := "#FF6B6B" } }

/-- C7 counterexample: the spacing "2m" is one of the section-3 formats and
the claim therefore demands an average of 2, but the statistics regex
requires the `<num>x<num>` shape, so the element contributes nothing and
the computed average is 0. -/
theorem C7_single_number_spacing_ignored :
    (calculateProjectStatistics [plant2mElement]).averageSpacing = 0 ∧
    claimedAverageSpacing [plant2mElement] = 2 ∧
    spec3SpacingMeters "2m" = some 2 ∧
    (calculateProjectStatistics [plant2mElement]).averageSpacing ≠
      claimedAverageSpacing [plant2mElement] := by
  have hsearch : searchSpacingXY ("2m".toList) = none := rfl
  have hsearch2 : searchSpacingXY ['2', 'm'] = none := rfl
  have hparse : parseSpacingAnchored "2m" = some (2, none, false) := by
    have : parseSpacingAnchored "2m" = some (((2 : ℕ) : ℚ), none, false) := rfl
    rw [this]
    norm_num
  have h1 : (calculateProjectStatistics [plant2mElement]).averageSpacing = 0 := by
    simp [calculateProjectStatistics, statsStep, statsTypeStep, statsSelectedStep,
      statsSpacingStep, plant2mElement, hsearch, hsearch2]
  have h2 : claimedAverageSpacing [plant2mElement] = 2 := by
    simp [claimedAverageSpacing, plant2mElement, spec3SpacingMeters, hparse]
  refine ⟨h1, h2, by simp [spec3SpacingMeters, hparse], by rw [h1, h2]; norm_num⟩

/-- What one element adds to the spacing accumulator: a present plant with a
nonempty spacing containing a `<num>x<num>(cm|m)` substring contributes the
mean of the pair in meters; anything else contributes nothing. -/
def spacingContribution (el : DrawingElement) : ℚ :=
  match el.plant with
  | some p =>
    if p.spacing != "" then
      match searchSpacingXY p.spacing.toList with
      | some (w, h, isCm) =>
        ((if isCm then w / 100 else w) + (if isCm then h / 100 else h)) / 2
      | none => 0
    else 0
  | none => 0

/-- What one element adds to the terrain area: terrain-typed with both
real-world dimensions present and nonzero. -/
def terrainAreaContribution (el : DrawingElement) : ℚ :=
  if el.type = .terrain then
    match el.realWorldWidth, el.realWorldHeight with
    | some w, some h => if w ≠ 0 ∧ h ≠ 0 then w * h else 0
    | _, _ => 0
  else 0

theorem statsTypeStep_fields (st : ProjectStatistics) (el : DrawingElement) :
    (statsTypeStep st el).plants = st.plants + (if el.type = .plant then 1 else 0) ∧
    (statsTypeStep st el).totalArea = st.totalArea + terrainAreaContribution el ∧
    (statsTypeStep st el).averageSpacing = st.averageSpacing := by
  refine ⟨?_, ?_, ?_⟩ <;>
    cases hty : el.type <;>
    simp [statsTypeStep, terrainAreaContribution, hty] <;>
    rcases el.realWorldWidth with _ | wq <;>
    rcases el.realWorldHeight with _ | hq <;>
    simp <;>
    split <;>
    simp

theorem statsSelectedStep_fields (st : ProjectStatistics) (el : DrawingElement) :
    (statsSelectedStep st el).plants = st.plants ∧
    (statsSelectedStep st el).totalArea = st.totalArea ∧
    (statsSelectedStep st el).averageSpacing = st.averageSpacing := by
  refine ⟨?_, ?_, ?_⟩ <;> simp only [statsSelectedStep] <;> split <;> rfl

theorem statsSpacingStep_fields (st : ProjectStatistics) (el : DrawingElement) :
    (statsSpacingStep st el).plants = st.plants ∧
    (statsSpacingStep st el).totalArea = st.totalArea ∧
    (statsSpacingStep st el).averageSpacing = st.averageSpacing + spacingContribution el := by
  refine ⟨?_, ?_, ?_⟩ <;>
    rcases hpl : el.plant with _ | p <;>
    simp [statsSpacingStep, spacingContribution, hpl] <;>
    split <;>
    (try (rename_i hsearch; rcases hsearch2 : searchSpacingXY p.spacing.toList with _ | ⟨w, h, isCm⟩)) <;>
    simp_all

theorem statsStep_fields (st : ProjectStatistics) (el : DrawingElement) :
    (statsStep st el).plants = st.plants + (if el.type = .plant then 1 else 0) ∧
    (statsStep st el).totalArea = st.totalArea + terrainAreaContribution el ∧
    (statsStep st el).averageSpacing = st.averageSpacing + spacingContribution el := by
  obtain ⟨t1, t2, t3⟩ := statsTypeStep_fields st el
  obtain ⟨s1, s2, s3⟩ := statsSelectedStep_fields (statsTypeStep st el) el
  obtain ⟨p1, p2, p3⟩ := statsSpacingStep_fields (statsSelectedStep (statsTypeStep st el) el) el
  refine ⟨?_, ?_, ?_⟩ <;> simp only [statsStep, p1, p2, p3, s1, s2, s3, t1, t2, t3]

theorem calcStats_foldl (l : List DrawingElement) (init : ProjectStatistics) :
    (l.foldl statsStep init).plants = init.plants + l.countP (fun el => el.type = .plant) ∧
    (l.foldl statsStep init).totalArea = init.totalArea + (l.map terrainAreaContribution).sum ∧
    (l.foldl statsStep init).averageSpacing =
      init.averageSpacing + (l.map spacingContribution).sum := by
  induction l generalizing init with
  | nil => simp
  | cons x t ih =>
    obtain ⟨h1, h2, h3⟩ := statsStep_fields init x
    obtain ⟨g1, g2, g3⟩ := ih (statsStep init x)
    refine ⟨?_, ?_, ?_⟩ <;>
      simp only [List.foldl_cons, List.countP_cons, List.map_cons, List.sum_cons,
        g1, g2, g3, h1, h2, h3]
    · by_cases hx : x.type = .plant <;> simp [hx] <;> omega
    · ring
    · ring

/-- C7 amended: totalArea is the sum of realWorldWidth × realWorldHeight
over the terrain-typed elements carrying both (nonzero) dimensions, and
averageSpacing is the sum, over elements having a plant whose spacing
contains a `<num>x<num>(cm|m)` substring, of the mean of the pair in
meters — single-number spacings contribute nothing — divided by the number
of plant-typed elements when that number is positive (not by the number of
contributing elements), and left undivided otherwise. -/
theorem C7_amended_statistics (elements : List DrawingElement) :
    (calculateProjectStatistics elements).totalArea =
      (elements.map terrainAreaContribution).sum ∧
    (calculateProjectStatistics elements).plants =
      elements.countP (fun el => el.type = .plant) ∧
    (calculateProjectStatistics elements).averageSpacing =
      (if 0 < elements.countP (fun el => el.type = .plant)
       then (elements.map spacingContribution).sum /
         (elements.countP (fun el => el.type = .plant) : ℚ)
       else (elements.map spacingContribution).sum) := by
  obtain ⟨h1, h2, h3⟩ := calcStats_foldl elements
    { total := elements.length, plants := 0, terrain := 0, structures := 0,
      shapes := 0, selected := 0, totalArea := 0, averageSpacing := 0 }
  simp only [Nat.zero_add, zero_add] at h1 h2 h3
  unfold calculateProjectStatistics
  by_cases hp : 0 < elements.countP (fun el => el.type = .plant)
  · rw [if_pos (by omega : 0 < (elements.foldl statsStep
      { total := elements.length, plants := 0, terrain := 0, structures := 0,
        shapes := 0, selected := 0, totalArea := 0, averageSpacing := 0 }).plants)]
    rw [if_pos hp]
    exact ⟨h2, h1, by rw [h3, h1]⟩
  · rw [if_neg (by omega : ¬ 0 < (elements.foldl statsStep
      { total := elements.length, plants := 0, terrain := 0, structures := 0,
        shapes := 0, selected := 0, totalArea := 0, averageSpacing := 0 }).plants)]
    rw [if_neg hp]
    exact ⟨h2, h1, h3⟩

/-! ## Claims about the section-3-valid element universe -/

/-! C1: the section-3 validity predicate, the injection of typed values into
JavaScript objects, and the behaviour of `validateDrawingElement` on the
section-3-valid universe.  An optional field maps to `undefined`: for every
check the validators perform, a field holding `undefined` and an absent
field are indistinguishable. -/

/-- An optional value as a JavaScript field. -/
def optToJs {α : Type} (f : α → JsValue) : Option α → JsValue
  | some a => f a
  | none => .vUndefined

/-- A typed `Plant` as the JavaScript object the validator receives. -/
def plantToJs (p : Plant) : JsValue :=
  .vObj [("id", .vStr p.id), ("name", .vStr p.name), ("spacing", .vStr p.spacing),
         ("category", .vStr p.category), ("color", .vStr p.color)]

/-- A typed `Terrain` as a JavaScript object. -/
def terrainToJs (t : Terrain) : JsValue :=
  .vObj [("id", .vStr t.id), ("name", .vStr t.name), ("category", .vStr t.category),
         ("color", .vStr t.color),
         ("brushThickness", optToJs (fun q => .vNum (.num q)) t.brushThickness)]

/-- A typed `Structure` as a JavaScript object. -/
def structureToJs (st : Structure) : JsValue :=
  .vObj [("id", .vStr st.id), ("name", .vStr st.name), ("category", .vStr st.category),
         ("color", .vStr st.color),
         ("size", .vObj [("width", .vNum (.num st.size.width)),
                         ("height", .vNum (.num st.size.height))])]

/-- A typed `DrawingElement` as the JavaScript object the validator
receives. -/
def elementToJs (e : DrawingElement) : JsValue :=
  .vObj [("id", .vNum (.num e.id)),
         ("type", .vStr e.type.toJsType),
         ("x", .vNum (.num e.x)),
         ("y", .vNum (.num e.y)),
         ("width", optToJs (fun q => .vNum (.num q)) e.width),
         ("height", optToJs (fun q => .vNum (.num q)) e.height),
         ("radius", optToJs (fun q => .vNum (.num q)) e.radius),
         ("rotation", optToJs (fun q => .vNum (.num q)) e.rotation),
         ("plant", optToJs plantToJs e.plant),
         ("terrain", optToJs terrainToJs e.terrain),
         ("structure", optToJs structureToJs e.struct),
         ("realWorldWidth", optToJs (fun q => .vNum (.num q)) e.realWorldWidth),
         ("realWorldHeight", optToJs (fun q => .vNum (.num q)) e.realWorldHeight),
         ("brushType", optToJs JsValue.vStr e.brushType),
         ("texture", optToJs JsValue.vStr e.texture),
         ("pathPoints", optToJs (fun pts => .vArr (pts.map (fun pt =>
           .vObj [("x", .vNum (.num pt.1)), ("y", .vNum (.num pt.2))]))) e.pathPoints),
         ("selectedBrushMode", optToJs JsValue.vStr e.selectedBrushMode),
         ("brushThickness", optToJs (fun q => .vNum (.num q)) e.brushThickness),
         ("selected", optToJs JsValue.vBool e.selected)]

/-- Section-3 Plant invariants, read together with the validator rules of
section 4.1: presence (a nonempty string) of every field, names of at most
100 characters, the section-4.1 spacing pattern and the 6-digit hex
color. -/
def spec3ValidPlant (p : Plant) : Bool :=
  p.id != "" && p.name != "" && decide (p.name.length ≤ 100) && p.spacing != "" &&
  spacingFormatTest p.spacing && p.category != "" && p.color != "" && colorFormatTest p.color

/-- Section-3 Terrain invariants: presence of the string fields, name
bound, hex color, and an integer-valued brushThickness in [1,100] when
present. -/
def spec3ValidTerrain (t : Terrain) : Bool :=
  t.id != "" && t.name != "" && decide (t.name.length ≤ 100) && t.category != "" &&
  t.color != "" && colorFormatTest t.color &&
  (match t.brushThickness with
   | some bt => decide (1 ≤ bt) && decide (bt ≤ 100) && decide (bt.den = 1)
   | none => true)

/-- Section-3 DrawingElement invariants: finite coordinates within ±100000
(finiteness is by construction in the typed model), non-negative
width/height/radius when present, and valid embedded Plant/Terrain data on
plant/terrain-typed elements. -/
def spec3ValidElement (e : DrawingElement) : Bool :=
  decide (|e.x| ≤ 100000) && decide (|e.y| ≤ 100000) &&
  (match e.width with | some w => decide (0 ≤ w) | none => true) &&
  (match e.height with | some h => decide (0 ≤ h) | none => true) &&
  (match e.radius with | some r => decide (0 ≤ r) | none => true) &&
  (if e.type = .plant then
    (match e.plant with | some p => spec3ValidPlant p | none => true)
   else true) &&
  (if e.type = .terrain then
    (match e.terrain with | some t => spec3ValidTerrain t | none => true)
   else true)

/-- A section-3-valid plant passes `validatePlant`. -/
theorem validatePlant_spec3 (p : Plant) (h : spec3ValidPlant p = true) :
    validatePlant (plantToJs p) = .ok { isValid := true } := by
  simp only [spec3ValidPlant, Bool.and_eq_true, bne_iff_ne, ne_eq,
    decide_eq_true_eq] at h
  obtain ⟨⟨⟨⟨⟨⟨⟨hpid, hname⟩, hlen⟩, hsp⟩, hspok⟩, hcat⟩, hcol⟩, hcolok⟩ := h
  have hltlen : ¬((100 : ℚ) < (p.name.length : ℚ)) := by exact_mod_cast Nat.not_lt.mpr hlen
  simp [validatePlant, plantToJs, jsGet, objGet, List.lookup, truthy, typeofJs, exceptBind_ok,
    strVal, jvGtQ, JNum.ltJ, hpid, hname, hsp, hspok, hcat, hcol, hcolok, hltlen]

/-- A section-3-valid terrain passes `validateTerrain`. -/
theorem validateTerrain_spec3 (t : Terrain) (h : spec3ValidTerrain t = true) :
    validateTerrain (terrainToJs t) = .ok { isValid := true } := by
  simp only [spec3ValidTerrain, Bool.and_eq_true, bne_iff_ne, ne_eq,
    decide_eq_true_eq] at h
  obtain ⟨⟨⟨⟨⟨⟨htid, hname⟩, hlen⟩, hcat⟩, hcol⟩, hcolok⟩, hbrush⟩ := h
  have hltlen : ¬((100 : ℚ) < (t.name.length : ℚ)) := by exact_mod_cast Nat.not_lt.mpr hlen
  rcases hbt : t.brushThickness with _ | bt
  · simp [validateTerrain, terrainToJs, jsGet, objGet, List.lookup, truthy, typeofJs, exceptBind_ok,
      strVal, jvGtQ, jvLtQ, JNum.ltJ, optToJs, isUndefinedV, hbt,
      htid, hname, hcat, hcol, hcolok, hltlen]
  · rw [hbt] at hbrush
    simp only [Bool.and_eq_true, decide_eq_true_eq] at hbrush
    obtain ⟨⟨hb1, hb2⟩, _⟩ := hbrush
    have hnb1 : ¬(bt < 1) := not_lt.mpr hb1
    have hnb2 : ¬((100 : ℚ) < bt) := not_lt.mpr hb2
    simp [validateTerrain, terrainToJs, jsGet, objGet, List.lookup, truthy, typeofJs, exceptBind_ok,
      strVal, jvGtQ, jvLtQ, JNum.ltJ, optToJs, isUndefinedV, hbt,
      htid, hname, hcat, hcol, hcolok, hltlen, hnb1, hnb2]


/-- A dimension check of `validateDrawingElement` never fires on a typed
optional dimension that is non-negative when present. -/
theorem dimCondFalse (t : String) (o : Option ℚ)
    (ho : (match o with | some w => decide (0 ≤ w) | none => true) = true) :
    (isShapeType t && !isUndefinedV (optToJs (fun q => .vNum (.num q)) o) &&
      (typeofJs (optToJs (fun q => .vNum (.num q)) o) != "number" ||
       jvLtQ (optToJs (fun q => .vNum (.num q)) o) 0 ||
       !isFiniteV (optToJs (fun q => .vNum (.num q)) o))) = false := by
  rcases o with _ | q
  · simp [optToJs, isUndefinedV]
  · simp only [decide_eq_true_eq] at ho
    simp [optToJs, isUndefinedV, typeofJs, jvLtQ, JNum.ltJ, isFiniteV, JNum.isFiniteJ,
      not_lt.mpr ho]

/-- The rotation check of `validateDrawingElement` never fires on a typed
optional rotation. -/
theorem rotCondFalse (o : Option ℚ) :
    (!isUndefinedV (optToJs (fun q => .vNum (.num q)) o) &&
      (typeofJs (optToJs (fun q => .vNum (.num q)) o) != "number" ||
       !isFiniteV (optToJs (fun q => .vNum (.num q)) o))) = false := by
  rcases o with _ | q <;>
    simp [optToJs, isUndefinedV, typeofJs, isFiniteV, JNum.isFiniteJ]

/-- `optToJs` on a present value. -/
theorem optToJs_some {α : Type} (f : α → JsValue) (a : α) : optToJs f (some a) = f a := rfl

/-- `optToJs` on an absent value. -/
theorem optToJs_none {α : Type} (f : α → JsValue) : optToJs f none = .vUndefined := rfl

/-- A serialized plant object is truthy. -/
theorem truthy_plantToJs (p : Plant) : truthy (plantToJs p) = true := rfl

/-- A serialized terrain object is truthy. -/
theorem truthy_terrainToJs (t : Terrain) : truthy (terrainToJs t) = true := rfl

set_option maxHeartbeats 3000000 in
/-- C1 amended: a DrawingElement satisfying the section-3 invariants whose
type is plant, terrain, rectangle or circle — but not structure — and whose
id is a nonzero (truthy) number passes `validateDrawingElement`. -/
theorem C1_amended_valid_elements_accepted (e : DrawingElement)
    (hspec : spec3ValidElement e = true)
    (hid : e.id ≠ 0) (htype : e.type ≠ .structure') :
    validateDrawingElement (elementToJs e) = .ok { isValid := true } := by
  obtain ⟨eid, ty, ex, ey, ew, eh, er, erot, epl, ete, est, erww, erwh, ebt, etx, epp, esbm, ebth, esel⟩ := e
  simp only [spec3ValidElement, Bool.and_eq_true, decide_eq_true_eq] at hspec
  obtain ⟨⟨⟨⟨⟨⟨hx, hy⟩, hw⟩, hh⟩, hr⟩, hplant⟩, hterrain⟩ := hspec
  have hx' : ¬((100000 : ℚ) < |ex|) := not_lt.mpr hx
  have hy' : ¬((100000 : ℚ) < |ey|) := not_lt.mpr hy
  simp only [ne_eq] at hid htype
  cases ty
  case structure' => exact absurd rfl htype
  case plant =>
    simp only [if_pos rfl] at hplant
    rcases hpl : epl with _ | p
    · simp [validateDrawingElement, elementToJs, ElementType.toJsType, jsGet, objGet,
        List.lookup, truthy, typeofJs, exceptBind_ok, strVal, validTypes, isShapeType,
        JNum.truthyJ, JNum.absJ, JNum.ltJ, jvAbsGtQ, isFiniteV, JNum.isFiniteJ,
        optToJs_some, optToJs_none, hid, hx', hy',
        dimCondFalse _ _ hw, dimCondFalse _ _ hh, dimCondFalse _ _ hr, rotCondFalse] <;>
        rcases ew with _ | wq <;> rcases eh with _ | hq2 <;> rcases er with _ | rq <;>
        rcases erot with _ | oq <;>
        simp_all [optToJs, isUndefinedV, typeofJs, isFiniteV, JNum.isFiniteJ, jvLtQ,
          JNum.ltJ, not_lt] <;>
        (repeat' split) <;>
        first
          | rfl
          | (exfalso; linarith)
    · rw [hpl] at hplant
      have hacc := validatePlant_spec3 p hplant
      simp [validateDrawingElement, elementToJs, ElementType.toJsType, jsGet, objGet,
        List.lookup, truthy, typeofJs, exceptBind_ok, strVal, validTypes, isShapeType,
        JNum.truthyJ, JNum.absJ, JNum.ltJ, jvAbsGtQ, isFiniteV, JNum.isFiniteJ,
        optToJs_some, optToJs_none, truthy_plantToJs, hid, hx', hy', hacc,
        dimCondFalse _ _ hw, dimCondFalse _ _ hh, dimCondFalse _ _ hr, rotCondFalse] <;>
        rcases ew with _ | wq <;> rcases eh with _ | hq2 <;> rcases er with _ | rq <;>
        rcases erot with _ | oq <;>
        simp_all [optToJs, isUndefinedV, typeofJs, isFiniteV, JNum.isFiniteJ, jvLtQ,
          JNum.ltJ, not_lt] <;>
        (repeat' split) <;>
        first
          | rfl
          | (exfalso; linarith)
  case terrain =>
    simp only [if_pos rfl] at hterrain
    rcases hte : ete with _ | t
    · simp [validateDrawingElement, elementToJs, ElementType.toJsType, jsGet, objGet,
        List.lookup, truthy, typeofJs, exceptBind_ok, strVal, validTypes, isShapeType,
        JNum.truthyJ, JNum.absJ, JNum.ltJ, jvAbsGtQ, isFiniteV, JNum.isFiniteJ,
        optToJs_some, optToJs_none, hid, hx', hy',
        dimCondFalse _ _ hw, dimCondFalse _ _ hh, dimCondFalse _ _ hr, rotCondFalse] <;>
        rcases ew with _ | wq <;> rcases eh with _ | hq2 <;> rcases er with _ | rq <;>
        rcases erot with _ | oq <;>
        simp_all [optToJs, isUndefinedV, typeofJs, isFiniteV, JNum.isFiniteJ, jvLtQ,
          JNum.ltJ, not_lt] <;>
        (repeat' split) <;>
        first
          | rfl
          | (exfalso; linarith)
    · rw [hte] at hterrain
      have hacc := validateTerrain_spec3 t hterrain
      simp [validateDrawingElement, elementToJs, ElementType.toJsType, jsGet, objGet,
        List.lookup, truthy, typeofJs, exceptBind_ok, strVal, validTypes, isShapeType,
        JNum.truthyJ, JNum.absJ, JNum.ltJ, jvAbsGtQ, isFiniteV, JNum.isFiniteJ,
        optToJs_some, optToJs_none, truthy_terrainToJs, hid, hx', hy', hacc,
        dimCondFalse _ _ hw, dimCondFalse _ _ hh, dimCondFalse _ _ hr, rotCondFalse] <;>
        rcases ew with _ | wq <;> rcases eh with _ | hq2 <;> rcases er with _ | rq <;>
        rcases erot with _ | oq <;>
        simp_all [optToJs, isUndefinedV, typeofJs, isFiniteV, JNum.isFiniteJ, jvLtQ,
          JNum.ltJ, not_lt] <;>
        (repeat' split) <;>
        first
          | rfl
          | (exfalso; linarith)
  case rectangle =>
    simp [validateDrawingElement, elementToJs, ElementType.toJsType, jsGet, objGet,
      List.lookup, truthy, typeofJs, exceptBind_ok, strVal, validTypes, isShapeType,
      JNum.truthyJ, JNum.absJ, JNum.ltJ, jvAbsGtQ, isFiniteV, JNum.isFiniteJ,
      optToJs_some, optToJs_none, hid, hx', hy',
      dimCondFalse _ _ hw, dimCondFalse _ _ hh, dimCondFalse _ _ hr, rotCondFalse] <;>
        rcases ew with _ | wq <;> rcases eh with _ | hq2 <;> rcases er with _ | rq <;>
        rcases erot with _ | oq <;>
        simp_all [optToJs, isUndefinedV, typeofJs, isFiniteV, JNum.isFiniteJ, jvLtQ,
          JNum.ltJ, not_lt] <;>
        (repeat' split) <;>
        first
          | rfl
          | (exfalso; linarith)
  case circle =>
    simp [validateDrawingElement, elementToJs, ElementType.toJsType, jsGet, objGet,
      List.lookup, truthy, typeofJs, exceptBind_ok, strVal, validTypes, isShapeType,
      JNum.truthyJ, JNum.absJ, JNum.ltJ, jvAbsGtQ, isFiniteV, JNum.isFiniteJ,
      optToJs_some, optToJs_none, hid, hx', hy',
      dimCondFalse _ _ hw, dimCondFalse _ _ hh, dimCondFalse _ _ hr, rotCondFalse] <;>
        rcases ew with _ | wq <;> rcases eh with _ | hq2 <;> rcases er with _ | rq <;>
        rcases erot with _ | oq <;>
        simp_all [optToJs, isUndefinedV, typeofJs, isFiniteV, JNum.isFiniteJ, jvLtQ,
          JNum.ltJ, not_lt] <;>
        (repeat' split) <;>
        first
          | rfl
          | (exfalso; linarith)


/-- A structure-typed element satisfying every section-3 invariant. -/
def structureElement : DrawingElement :=
  { id := 7, type := .structure', x := 10, y := 20,
    struct := some { id := "s1", name := "Barn", category := "buildings",
                     color := "#696969", size := { width := 4, height := 6 } } }

/-- C1 counterexample: a section-3-valid structure-typed element (truthy id,
finite in-bounds coordinates, valid embedded structure) is rejected by
`validateDrawingElement`, whose `validTypes` list omits "structure". -/
theorem C1_structure_type_rejected :
    spec3ValidElement structureElement = true ∧
    structureElement.id ≠ 0 ∧
    validateDrawingElement (elementToJs structureElement) =
      .ok { isValid := false,
            error := some "Element type must be one of: plant, terrain, rectangle, circle" } := by
  refine ⟨by decide, by decide, by decide⟩

/-- A plant-typed element satisfying every section-3 invariant. -/
def validPlantElement : DrawingElement :=
  { id := 1, type := .plant, x := 5, y := 5, width := some 2, rotation := some 45,
    plant := some { id := "p1", name := "Tomato", spacing := "1x1m",
                    category := "vegetables", color := "#FF6B6B" } }

theorem C1_amended_witness :
    spec3ValidElement validPlantElement = true ∧
    validPlantElement.id ≠ 0 ∧
    validPlantElement.type ≠ .structure' ∧
    validateDrawingElement (elementToJs validPlantElement) = .ok { isValid := true } :=
  ⟨by decide, by decide, by decide,
    C1_amended_valid_elements_accepted validPlantElement (by decide) (by decide) (by decide)⟩

end Agro
